import Mathlib

/-!
# neo4j-go-driver: the seabolt driver shim and the error matchers

A shallow embedding of `seabolt_driver.go` (package `neo4j`) and of
`internal/testing/omega_matchers.go` (package `drivertest`).

Conventions of the embedding

* A Go pointer or interface value that the code compares against `nil` is an `Option`;
  a pointer the code dereferences without a check is the value it points to.
* A Go result pair `(x, err)` is a Lean pair of `Option`s, `none` standing for `nil`.
* The native connector (package `seabolt`) is an external collaborator. Its state is a type
  parameter `σ`; its functions are the fields of `Env`. Every call made to it is recorded in
  the ghost field `World.calls`, so that "is invoked exactly once" can be stated.
* The atomic operations on `open` are executed sequentially.
* A method call on a `nil` interface value is the runtime panic `Run.panic`.
-/

set_option autoImplicit false

/-! ## Values of the Go runtime -/

namespace url

/-- The standard library record `url.URL`, carried around but never inspected by the driver. -/
structure URL where
  Scheme : String
  Host : String
  Path : String
  RawQuery : String
  deriving DecidableEq, Repr

end url

namespace strings

/-- The standard library function `strings.Contains(s, substr)`. -/
def Contains (s substr : String) : Bool :=
  decide (substr.toList <:+: s.toList)

end strings

namespace seabolt

/-- The connector's access mode constants `seabolt.AccessModeWrite`, `seabolt.AccessModeRead`. -/
inductive AccessMode
  | AccessModeWrite
  | AccessModeRead
  deriving DecidableEq, Repr

/-- The error `*seabolt.DatabaseError` with the results of its three accessors. -/
structure DatabaseError where
  Classification : String
  Code : String
  Message : String
  deriving DecidableEq, Repr

/-- The error `*seabolt.PoolError`; `Code()` is an unsigned 32 bit number. -/
structure PoolError where
  Code : Nat
  deriving DecidableEq, Repr

/-- The error `*seabolt.ConnectorError` with the results of `State()` and `Code()`. -/
structure ConnectorError where
  State : Nat
  Code : Nat
  deriving DecidableEq, Repr

/-- A handle on a native connector, the interface value `seabolt.Connector`. -/
abbrev Connector := Nat

/-- A handle on a native connection, the interface value `seabolt.Connection`. -/
abbrev Connection := Nat

/-- The handlers listed in `configToSeaboltConfig`, each an empty struct of the driver. -/
inductive ValueHandler
  | nodeValueHandler
  | relationshipValueHandler
  | pathValueHandler
  | pointValueHandler
  | dateValueHandler
  | localTimeValueHandler
  | offsetTimeValueHandler
  | localDateTimeValueHandler
  | dateTimeValueHandler
  | durationValueHandler
  deriving DecidableEq, Repr

/-- A handle on a logger, the interface value stored in `Config.Log`. -/
abbrev Logging := Nat

/-- The fields of `seabolt.Config` that `configToSeaboltConfig` sets. -/
structure Config where
  Encryption : Bool
  Log : Option Logging
  MaxPoolSize : Int
  ValueHandlers : List ValueHandler
  deriving DecidableEq, Repr

end seabolt

/-- Values of the Go interface `error`: the three connector errors and the errors made by
`errors.New` of `github.com/pkg/errors`. -/
inductive GoError
  | DatabaseError (e : seabolt.DatabaseError)
  | PoolError (e : seabolt.PoolError)
  | ConnectorError (e : seabolt.ConnectorError)
  | fundamental (msg : String)
  deriving DecidableEq, Repr

namespace errors

/-- The function `errors.New(message)`. -/
def New (message : String) : GoError :=
  GoError.fundamental message

end errors

/-- The text `err.Error()` of an error made by `errors.New`; the texts of the connector's
errors are formatted by the connector and are not modelled. -/
def GoError.text : GoError → Option String
  | .fundamental msg => some msg
  | _ => none

/-- Values of the empty interface `interface{}`, the argument type of the matchers. -/
inductive Value
  | nil
  | error (e : GoError)
  | string (s : String)
  | int (n : Int)
  | bool (b : Bool)
  deriving DecidableEq, Repr

/-- Outcome of a call that may end in a runtime panic. -/
inductive Run (α : Type)
  | ret (a : α)
  | panic
  deriving DecidableEq, Repr

/-! ## seabolt_driver.go -/

/-- The type `AccessMode` of the driver, an `int`. -/
abbrev AccessMode := Int

/-- The fields of the driver's `Config` that `configToSeaboltConfig` reads. -/
structure Config where
  Encrypted : Bool
  Log : Option seabolt.Logging
  MaxConnectionPoolSize : Int
  deriving DecidableEq, Repr

/-- The record `AuthToken`; only its field `tokens` is read. -/
structure AuthToken where
  tokens : List (String × String)
  deriving DecidableEq, Repr

/-- The struct `seaboltDriver`. The field `openFlag` is the source's `open int32`. -/
structure seaboltDriver where
  config : Config
  target : url.URL
  connector : seabolt.Connector
  openFlag : Int
  deriving DecidableEq, Repr

/-- A call made to the native connector. -/
inductive Call
  | NewConnector (target : url.URL) (tokens : List (String × String)) (config : seabolt.Config)
  | Acquire (connector : seabolt.Connector) (mode : seabolt.AccessMode)
  | Close (connector : seabolt.Connector)
  deriving DecidableEq, Repr

/-- The state of the native library together with the record of the calls made to it. -/
structure World (σ : Type) where
  state : σ
  calls : List Call

/-- What `seabolt_driver.go` uses and does not define: the two access mode constants, the
functions `defaultConfig` and `newSession` of package `neo4j`, and the native connector.
`S` is the type of a session, `σ` the state of the native library. -/
structure Env (σ S : Type) where
  AccessModeWrite : AccessMode
  AccessModeRead : AccessMode
  defaultConfig : Config
  newSession : seaboltDriver → AccessMode → List String → Option S
  NewConnector : σ → url.URL → List (String × String) → seabolt.Config →
    Except GoError seabolt.Connector × σ
  Acquire : σ → seabolt.Connector → seabolt.AccessMode →
    (Option seabolt.Connection × Option GoError) × σ
  Close : σ → seabolt.Connector → Option GoError × σ

/-- The function `configToSeaboltConfig`. -/
def configToSeaboltConfig (config : Config) : seabolt.Config :=
  { Encryption := config.Encrypted
    Log := config.Log
    MaxPoolSize := config.MaxConnectionPoolSize
    ValueHandlers :=
      [ .nodeValueHandler,
        .relationshipValueHandler,
        .pathValueHandler,
        .pointValueHandler,
        .dateValueHandler,
        .localTimeValueHandler,
        .offsetTimeValueHandler,
        .localDateTimeValueHandler,
        .dateTimeValueHandler,
        .durationValueHandler ] }

/-- The function `newSeaboltDriver`. -/
def newSeaboltDriver {σ S : Type} (env : Env σ S) (w : World σ) (target : url.URL)
    (token : AuthToken) (config : Option Config) :
    (Option seaboltDriver × Option GoError) × World σ :=
  let config :=
    match config with
    | none => env.defaultConfig
    | some c => c
  let r := env.NewConnector w.state target token.tokens (configToSeaboltConfig config)
  let w1 : World σ :=
    { state := r.2
      calls := w.calls ++ [Call.NewConnector target token.tokens (configToSeaboltConfig config)] }
  match r.1 with
  | .error err => ((none, some err), w1)
  | .ok connector =>
    ((some { config := config, target := target, connector := connector, openFlag := 1 }, none),
      w1)

/-- The function `assertDriverOpen`. -/
def assertDriverOpen (driver : seaboltDriver) : Option GoError :=
  if driver.openFlag = 0 then
    some (errors.New "cannot acquire a session on a closed driver")
  else
    none

/-- The method `Target`. -/
def seaboltDriver.Target (driver : seaboltDriver) : url.URL :=
  driver.target

/-- The method `Session`. -/
def seaboltDriver.Session {σ S : Type} (env : Env σ S) (driver : seaboltDriver)
    (accessMode : AccessMode) (bookmarks : List String) : Option S × Option GoError :=
  match assertDriverOpen driver with
  | some err => (none, some err)
  | none => (env.newSession driver accessMode bookmarks, none)

/-- The method `Close`: the compare-and-swap of `open` from 1 to 0, then the connector's
`Close` when the swap took place. -/
def seaboltDriver.Close {σ S : Type} (env : Env σ S) (driver : seaboltDriver) (w : World σ) :
    Option GoError × seaboltDriver × World σ :=
  if driver.openFlag = 1 then
    let driver1 := { driver with openFlag := 0 }
    let r := env.Close w.state driver1.connector
    (r.1, driver1, { state := r.2, calls := w.calls ++ [Call.Close driver1.connector] })
  else
    (none, driver, w)

/-- The method `configuration`. -/
def seaboltDriver.configuration (driver : seaboltDriver) : Config :=
  driver.config

/-- The method `acquire`. -/
def seaboltDriver.acquire {σ S : Type} (env : Env σ S) (driver : seaboltDriver) (w : World σ)
    (mode : AccessMode) : (Option seabolt.Connection × Option GoError) × World σ :=
  match assertDriverOpen driver with
  | some err => ((none, some err), w)
  | none =>
    let seaboltMode :=
      if mode = env.AccessModeRead then seabolt.AccessMode.AccessModeRead
      else seabolt.AccessMode.AccessModeWrite
    let r := env.Acquire w.state driver.connector seaboltMode
    (r.1, { state := r.2, calls := w.calls ++ [Call.Acquire driver.connector seaboltMode] })

/-! ### Sequences of operations -/

/-- The operations a caller can apply to a driver. -/
inductive Op
  | Session (accessMode : AccessMode) (bookmarks : List String)
  | acquire (mode : AccessMode)
  | Close
  | Target
  | configuration
  deriving DecidableEq, Repr

/-- One operation applied to a driver: the driver and the world after it. -/
def step {σ S : Type} (env : Env σ S) (s : seaboltDriver × World σ) (op : Op) :
    seaboltDriver × World σ :=
  match op with
  | .Session _ _ => s
  | .acquire mode => (s.1, (s.1.acquire env s.2 mode).2)
  | .Close => (s.1.Close env s.2).2
  | .Target => s
  | .configuration => s

/-- A sequence of operations applied from left to right. -/
def run {σ S : Type} (env : Env σ S) (s : seaboltDriver × World σ) (ops : List Op) :
    seaboltDriver × World σ :=
  ops.foldl (step env) s

/-- The results of `n` successive calls of `Close`, with the driver and the world after the
last one. -/
def closeTimes {σ S : Type} (env : Env σ S) :
    Nat → seaboltDriver → World σ → List (Option GoError) × seaboltDriver × World σ
  | 0, driver, w => ([], driver, w)
  | n + 1, driver, w =>
    let r := driver.Close env w
    let rest := closeTimes env n r.2.1 r.2.2
    (r.1 :: rest.1, rest.2)

/-- The number of calls of the connector's `Close` in a record of calls. -/
def closeCalls (calls : List Call) : Nat :=
  (calls.filter fun c => match c with
    | .Close _ => true
    | _ => false).length

/-- The number of calls of the connector's `Acquire` in a record of calls. -/
def acquireCalls (calls : List Call) : Nat :=
  (calls.filter fun c => match c with
    | .Acquire _ _ => true
    | _ => false).length

/-! ## internal/testing/omega_matchers.go -/

namespace gomega

/-- The matchers of package `gomega` that the constructors of this file store in a
`databaseErrorMatcher`: `gomega.BeEquivalentTo(expected)` with a string and
`gomega.ContainSubstring(substr)` without format arguments. They are applied to the results of
the accessors of a `DatabaseError`, which are strings. -/
inductive StringMatcher
  | BeEquivalentTo (expected : String)
  | ContainSubstring (substr : String)
  deriving DecidableEq, Repr

/-- The method `Match` of a string matcher of `gomega` at a string: equality for
`BeEquivalentTo`, `strings.Contains` for `ContainSubstring`; no matcher error arises. -/
def StringMatcher.Match : StringMatcher → String → Bool × Option GoError
  | .BeEquivalentTo expected, actual => (decide (actual = expected), none)
  | .ContainSubstring substr, actual => (strings.Contains actual substr, none)

/-- The matcher `gomega.BeEquivalentTo(expected)` with an `int`, as stored in a
`connectorErrorMatcher` and applied to the unsigned numbers `State()` and `Code()`. -/
inductive NumberMatcher
  | BeEquivalentTo (expected : Int)
  deriving DecidableEq, Repr

/-- The method `Match` of `BeEquivalentTo` at an unsigned number: the number is converted to
`int` and compared with the expected one. -/
def NumberMatcher.Match : NumberMatcher → Nat → Bool × Option GoError
  | .BeEquivalentTo expected, actual => (decide ((actual : Int) = expected), none)

end gomega

/-- The texts produced outside this file: the rendering of a value by the verb `%#v` and the
failure message of a string matcher of `gomega`. -/
structure Formatter where
  sharpV : Value → String
  FailureMessage : gomega.StringMatcher → String → String

/-- The struct `databaseErrorMatcher`. -/
structure databaseErrorMatcher where
  classificationMatcher : Option gomega.StringMatcher
  codeMatcher : Option gomega.StringMatcher
  messageMatcher : Option gomega.StringMatcher
  deriving DecidableEq, Repr

/-- The struct `serviceUnavailableErrorMatcher`. -/
structure serviceUnavailableErrorMatcher where
  deriving DecidableEq, Repr

/-- The struct `poolErrorMatcher`. -/
structure poolErrorMatcher where
  expected : Nat
  expectedText : String
  deriving DecidableEq, Repr

/-- The struct `connectorErrorMatcher`. -/
structure connectorErrorMatcher where
  stateMatcher : Option gomega.NumberMatcher
  codeMatcher : Option gomega.NumberMatcher
  deriving DecidableEq, Repr

/-- The constructor `BeDatabaseError`. -/
def BeDatabaseError : databaseErrorMatcher :=
  { classificationMatcher := none, codeMatcher := none, messageMatcher := none }

/-- The constructor `BeTransientError`. -/
def BeTransientError : databaseErrorMatcher :=
  { classificationMatcher := some (.BeEquivalentTo "TransientError")
    codeMatcher := none
    messageMatcher := none }

/-- The constructor `BeClientError`. -/
def BeClientError : databaseErrorMatcher :=
  { classificationMatcher := some (.BeEquivalentTo "ClientError")
    codeMatcher := none
    messageMatcher := none }

/-- The constructor `BeArithmeticError`. -/
def BeArithmeticError : databaseErrorMatcher :=
  { classificationMatcher := none
    codeMatcher := some (.ContainSubstring "ArithmeticError")
    messageMatcher := none }

/-- The constructor `BeSyntaxError`. -/
def BeSyntaxError : databaseErrorMatcher :=
  { classificationMatcher := none
    codeMatcher := some (.ContainSubstring "SyntaxError")
    messageMatcher := none }

/-- The constructor `BeServiceUnavailableError`. -/
def BeServiceUnavailableError : serviceUnavailableErrorMatcher :=
  {}

/-- The constructor `BePoolFullError`. -/
def BePoolFullError : poolErrorMatcher :=
  { expected := 1, expectedText := "Pool full" }

/-- The constructor `BeAuthenticationError`. -/
def BeAuthenticationError : connectorErrorMatcher :=
  { stateMatcher := some (.BeEquivalentTo 4), codeMatcher := some (.BeEquivalentTo 7) }

/-- The constructor `ContainMessage`. -/
def ContainMessage (part : String) : databaseErrorMatcher :=
  { classificationMatcher := none
    codeMatcher := none
    messageMatcher := some (.ContainSubstring part) }

/-- The type assertion `actual.(*seabolt.DatabaseError)`. -/
def Value.asDatabaseError : Value → Option seabolt.DatabaseError
  | .error (.DatabaseError e) => some e
  | _ => none

/-- The type assertion `actual.(*seabolt.PoolError)`. -/
def Value.asPoolError : Value → Option seabolt.PoolError
  | .error (.PoolError e) => some e
  | _ => none

/-- The type assertion `actual.(*seabolt.ConnectorError)`. -/
def Value.asConnectorError : Value → Option seabolt.ConnectorError
  | .error (.ConnectorError e) => some e
  | _ => none

/-- The type assertion `actual.(error)`. -/
def Value.asError : Value → Option GoError
  | .error e => some e
  | _ => none

/-- The method `Match` of `databaseErrorMatcher`. -/
def databaseErrorMatcher.Match (matcher : databaseErrorMatcher) (actual : Value) :
    Bool × Option GoError :=
  match actual.asDatabaseError with
  | none => (false, none)
  | some databaseError =>
    match matcher.classificationMatcher with
    | some m => m.Match databaseError.Classification
    | none =>
      match matcher.codeMatcher with
      | some m => m.Match databaseError.Code
      | none =>
        match matcher.messageMatcher with
        | some m => m.Match databaseError.Message
        | none => (true, none)

/-- The call `m.FailureMessage(actual)` on an interface value `m`: a runtime panic when `m` is
`nil`. -/
def callFailureMessage (f : Formatter) (m : Option gomega.StringMatcher) (actual : String) :
    Run String :=
  match m with
  | none => .panic
  | some m => .ret (f.FailureMessage m actual)

/-- The call `fmt.Sprintf(format, actual, message)` with the verbs `%#v` and `%s`, once
the argument `message` has been evaluated. -/
def sprintfWith (f : Formatter) (before : String) (actual : Value) (middle : String)
    (message : Run String) : Run String :=
  match message with
  | .panic => .panic
  | .ret s => .ret (before ++ f.sharpV actual ++ middle ++ s)

/-- The method `FailureMessage` of `databaseErrorMatcher`. -/
def databaseErrorMatcher.FailureMessage (f : Formatter) (matcher : databaseErrorMatcher)
    (actual : Value) : Run String :=
  match actual.asDatabaseError with
  | none => .ret ("Expected\n\t" ++ f.sharpV actual ++ "\nto be a DatabaseError")
  | some databaseError =>
    if matcher.classificationMatcher.isSome then
      sprintfWith f "Expected\n\t" actual "\nto have its classification to match "
        (callFailureMessage f matcher.classificationMatcher databaseError.Classification)
    else if matcher.codeMatcher.isSome then
      sprintfWith f "Expected\n\t" actual "\nto have its code to match "
        (callFailureMessage f matcher.codeMatcher databaseError.Code)
    else if matcher.messageMatcher.isSome then
      sprintfWith f "Expected\n\t" actual "\nto have its message to match "
        (callFailureMessage f matcher.classificationMatcher databaseError.Message)
    else
      .ret "Unexpected condition in matcher"

/-- The method `NegatedFailureMessage` of `databaseErrorMatcher`. -/
def databaseErrorMatcher.NegatedFailureMessage (f : Formatter) (matcher : databaseErrorMatcher)
    (actual : Value) : Run String :=
  match actual.asDatabaseError with
  | none => .ret ("Expected\n\t" ++ f.sharpV actual ++ "\nnot to be a DatabaseError")
  | some databaseError =>
    if matcher.classificationMatcher.isSome then
      sprintfWith f "Expected\n\t" actual "\nnot to have its classification to match "
        (callFailureMessage f matcher.classificationMatcher databaseError.Classification)
    else if matcher.codeMatcher.isSome then
      sprintfWith f "Expected\n\t" actual "\nnot to have its code to match "
        (callFailureMessage f matcher.codeMatcher databaseError.Code)
    else if matcher.messageMatcher.isSome then
      sprintfWith f "Expected\n\t" actual "\nnot to have its message to match "
        (callFailureMessage f matcher.classificationMatcher databaseError.Message)
    else
      .ret "Unexpected condition in matcher"

/-- The method `Match` of `serviceUnavailableErrorMatcher`; `IsServiceUnavailable` is the
connector's function `seabolt.IsServiceUnavailable`. -/
def serviceUnavailableErrorMatcher.Match (IsServiceUnavailable : GoError → Bool)
    (_matcher : serviceUnavailableErrorMatcher) (actual : Value) : Bool × Option GoError :=
  match actual.asError with
  | none => (false, none)
  | some err => (IsServiceUnavailable err, none)

/-- The method `Match` of `poolErrorMatcher`. -/
def poolErrorMatcher.Match (matcher : poolErrorMatcher) (actual : Value) :
    Bool × Option GoError :=
  match actual.asPoolError with
  | none => (false, none)
  | some poolError => (decide (poolError.Code = matcher.expected), none)

/-- The method `Match` of `connectorErrorMatcher`. -/
def connectorErrorMatcher.Match (matcher : connectorErrorMatcher) (actual : Value) :
    Bool × Option GoError :=
  match actual.asConnectorError with
  | none => (false, none)
  | some connectorError =>
    match matcher.stateMatcher with
    | some m => m.Match connectorError.State
    | none =>
      match matcher.codeMatcher with
      | some m => m.Match connectorError.Code
      | none => (true, none)

/-! ## Environments used to evaluate the definitions on concrete inputs -/

/-- A session as a record of the arguments of `newSession`. -/
structure SessionRecord where
  driver : seaboltDriver
  accessMode : AccessMode
  bookmarks : List String
  deriving DecidableEq, Repr

/-- A connector whose state counts the connections it has handed out: `NewConnector` fails on
an empty host, `Acquire` returns the next connection, `Close` fails with a pool error once
connections have been handed out. -/
def sampleEnv : Env Nat SessionRecord :=
  { AccessModeWrite := 0
    AccessModeRead := 1
    defaultConfig := { Encrypted := true, Log := none, MaxConnectionPoolSize := 100 }
    newSession := fun driver accessMode bookmarks =>
      some { driver := driver, accessMode := accessMode, bookmarks := bookmarks }
    NewConnector := fun s target _ _ =>
      if target.Host = "" then (.error (errors.New "invalid host"), s) else (.ok 7, s)
    Acquire := fun s _ _ => ((some s, none), s + 1)
    Close := fun s _ =>
      if s = 0 then (none, s) else (some (GoError.PoolError { Code := 1 }), s) }

/-- A target URL. -/
def sampleTarget : url.URL :=
  { Scheme := "bolt", Host := "localhost:7687", Path := "", RawQuery := "" }

/-- An open driver on connector 7. -/
def sampleDriver : seaboltDriver :=
  { config := { Encrypted := false, Log := none, MaxConnectionPoolSize := 10 }
    target := sampleTarget
    connector := 7
    openFlag := 1 }

/-- A closed driver on connector 7. -/
def closedDriver : seaboltDriver :=
  { sampleDriver with openFlag := 0 }

/-- The driver that `newSeaboltDriver` builds in `sampleEnv` for `sampleTarget` and a nil
config. -/
def constructedDriver : seaboltDriver :=
  { config := sampleEnv.defaultConfig, target := sampleTarget, connector := 7, openFlag := 1 }

/-- The world after that construction from a world without calls. -/
def constructedWorld : World Nat :=
  { state := 0
    calls := [Call.NewConnector sampleTarget [] (configToSeaboltConfig sampleEnv.defaultConfig)] }

/-- A formatter that renders every value as `<value>` and every failure as the actual text. -/
def sampleFormatter : Formatter :=
  { sharpV := fun _ => "<value>"
    FailureMessage := fun _ actual => actual }

/-! ## Helper lemmas -/

theorem assertDriverOpen_closed (driver : seaboltDriver) (h : driver.openFlag = 0) :
    assertDriverOpen driver = some (errors.New "cannot acquire a session on a closed driver") := by
  simp [assertDriverOpen, h]

theorem assertDriverOpen_open (driver : seaboltDriver) (h : driver.openFlag ≠ 0) :
    assertDriverOpen driver = none := by
  simp [assertDriverOpen, h]

theorem Close_not_open {σ S : Type} (env : Env σ S) (driver : seaboltDriver) (w : World σ)
    (h : driver.openFlag ≠ 1) : driver.Close env w = (none, driver, w) := by
  simp [seaboltDriver.Close, h]

theorem closeTimes_not_open {σ S : Type} (env : Env σ S) (n : Nat) (driver : seaboltDriver)
    (w : World σ) (h : driver.openFlag ≠ 1) :
    closeTimes env n driver w = (List.replicate n none, driver, w) := by
  induction n with
  | zero => rfl
  | succ k ih => simp [closeTimes, Close_not_open env driver w h, ih, List.replicate_succ]

theorem step_fields {σ S : Type} (env : Env σ S) (s : seaboltDriver × World σ) (op : Op) :
    (step env s op).1.config = s.1.config ∧ (step env s op).1.target = s.1.target ∧
      (step env s op).1.connector = s.1.connector := by
  cases op <;> simp [step, seaboltDriver.Close]
  split <;> simp

theorem step_openFlag {σ S : Type} (env : Env σ S) (s : seaboltDriver × World σ) (op : Op) :
    (op ≠ Op.Close → (step env s op).1.openFlag = s.1.openFlag) ∧
      (s.1.openFlag = 0 → (step env s op).1.openFlag = 0) ∧
      ((s.1.openFlag = 0 ∨ s.1.openFlag = 1) →
        ((step env s op).1.openFlag = 0 ∨ (step env s op).1.openFlag = 1)) := by
  cases op <;> simp [step, seaboltDriver.Close]
  split <;> simp_all

theorem run_append {σ S : Type} (env : Env σ S) (s : seaboltDriver × World σ)
    (ops more : List Op) : run env s (ops ++ more) = run env (run env s ops) more := by
  simp [run, List.foldl_append]

theorem run_cons {σ S : Type} (env : Env σ S) (s : seaboltDriver × World σ)
    (op : Op) (ops : List Op) : run env s (op :: ops) = run env (step env s op) ops := by
  simp [run]

theorem run_fields {σ S : Type} (env : Env σ S) (ops : List Op) (s : seaboltDriver × World σ) :
    (run env s ops).1.config = s.1.config ∧ (run env s ops).1.target = s.1.target ∧
      (run env s ops).1.connector = s.1.connector := by
  induction ops generalizing s with
  | nil => simp [run]
  | cons op ops ih =>
    rw [run_cons]
    obtain ⟨h1, h2, h3⟩ := ih (step env s op)
    obtain ⟨k1, k2, k3⟩ := step_fields env s op
    exact ⟨h1.trans k1, h2.trans k2, h3.trans k3⟩

theorem run_openFlag {σ S : Type} (env : Env σ S) (ops : List Op) (s : seaboltDriver × World σ)
    (h : s.1.openFlag = 0 ∨ s.1.openFlag = 1) :
    (run env s ops).1.openFlag = 0 ∨ (run env s ops).1.openFlag = 1 := by
  induction ops generalizing s with
  | nil => simpa [run] using h
  | cons op ops ih =>
    rw [run_cons]
    exact ih (step env s op) ((step_openFlag env s op).2.2 h)

theorem run_closed {σ S : Type} (env : Env σ S) (ops : List Op) (s : seaboltDriver × World σ)
    (h : s.1.openFlag = 0) : (run env s ops).1.openFlag = 0 := by
  induction ops generalizing s with
  | nil => simpa [run] using h
  | cons op ops ih =>
    rw [run_cons]
    exact ih (step env s op) ((step_openFlag env s op).2.1 h)

theorem Contains_iff (s substr : String) :
    strings.Contains s substr = true ↔ ∃ before after : String, s = before ++ substr ++ after := by
  unfold strings.Contains
  rw [decide_eq_true_iff]
  constructor
  · rintro ⟨l, r, h⟩
    refine ⟨String.mk l, String.mk r, ?_⟩
    have h1 : l ++ substr.data ++ r = s.data := h
    apply String.ext
    simp [String.data_append, ← h1]
  · rintro ⟨b, a, h⟩
    refine ⟨b.data, a.data, ?_⟩
    rw [h]
    show b.data ++ substr.data ++ a.data = (b ++ substr ++ a).data
    simp [String.data_append]

theorem newSeaboltDriver_ok {σ S : Type} (env : Env σ S) (w : World σ) (target : url.URL)
    (token : AuthToken) (config : Option Config) (connector : seabolt.Connector)
    (h : (env.NewConnector w.state target token.tokens
      (configToSeaboltConfig (config.getD env.defaultConfig))).1 = .ok connector) :
    (newSeaboltDriver env w target token config).1 =
      (some ⟨config.getD env.defaultConfig, target, connector, 1⟩, none) := by
  cases config with
  | none =>
    have h1 : (env.NewConnector w.state target token.tokens
        (configToSeaboltConfig env.defaultConfig)).1 = .ok connector := h
    simp only [newSeaboltDriver, h1, Option.getD]
  | some c =>
    have h1 : (env.NewConnector w.state target token.tokens
        (configToSeaboltConfig c)).1 = .ok connector := h
    simp only [newSeaboltDriver, h1, Option.getD]

theorem newSeaboltDriver_error {σ S : Type} (env : Env σ S) (w : World σ) (target : url.URL)
    (token : AuthToken) (config : Option Config) (err : GoError)
    (h : (env.NewConnector w.state target token.tokens
      (configToSeaboltConfig (config.getD env.defaultConfig))).1 = .error err) :
    (newSeaboltDriver env w target token config).1 = (none, some err) := by
  cases config with
  | none =>
    have h1 : (env.NewConnector w.state target token.tokens
        (configToSeaboltConfig env.defaultConfig)).1 = .error err := h
    simp only [newSeaboltDriver, h1]
  | some c =>
    have h1 : (env.NewConnector w.state target token.tokens
        (configToSeaboltConfig c)).1 = .error err := h
    simp only [newSeaboltDriver, h1]

theorem newSeaboltDriver_driver {σ S : Type} (env : Env σ S) (w : World σ) (target : url.URL)
    (token : AuthToken) (config : Option Config) (driver : seaboltDriver)
    (h : (newSeaboltDriver env w target token config).1.1 = some driver) :
    (newSeaboltDriver env w target token config).1.2 = none ∧ driver.openFlag = 1 ∧
      driver.target = target ∧ driver.config = config.getD env.defaultConfig := by
  cases hr : (env.NewConnector w.state target token.tokens
      (configToSeaboltConfig (config.getD env.defaultConfig))).1 with
  | error err =>
    rw [newSeaboltDriver_error env w target token config err hr] at h
    simp at h
  | ok connector =>
    rw [newSeaboltDriver_ok env w target token config connector hr] at h ⊢
    simp only [Option.some.injEq] at h
    subst h
    exact ⟨rfl, rfl, rfl, rfl⟩

theorem Session_open {σ S : Type} (env : Env σ S) (driver : seaboltDriver)
    (accessMode : AccessMode) (bookmarks : List String) (h : driver.openFlag ≠ 0) :
    driver.Session env accessMode bookmarks =
      (env.newSession driver accessMode bookmarks, none) := by
  simp [seaboltDriver.Session, assertDriverOpen_open driver h]

/-! ## The driver -/

/-- C1: on a driver whose open flag is 0, for every access mode and bookmark list, `Session`
returns a nil session and `acquire` a nil connection, each with the error whose text is
"cannot acquire a session on a closed driver"; `acquire` leaves the world untouched, so the
connector's `Acquire` is not invoked. -/
theorem closed_driver_rejects {σ S : Type} (env : Env σ S) (driver : seaboltDriver)
    (w : World σ) (accessMode : AccessMode) (bookmarks : List String)
    (h : driver.openFlag = 0) :
    driver.Session env accessMode bookmarks =
        (none, some (errors.New "cannot acquire a session on a closed driver")) ∧
      driver.acquire env w accessMode =
        ((none, some (errors.New "cannot acquire a session on a closed driver")), w) ∧
      (driver.acquire env w accessMode).2.calls = w.calls ∧
      acquireCalls (driver.acquire env w accessMode).2.calls = acquireCalls w.calls ∧
      (errors.New "cannot acquire a session on a closed driver").text =
        some "cannot acquire a session on a closed driver" := by
  have ha := assertDriverOpen_closed driver h
  simp [seaboltDriver.Session, seaboltDriver.acquire, ha, errors.New, GoError.text]

theorem closed_driver_rejects_witness :
    closedDriver.openFlag = 0 ∧
      closedDriver.Session sampleEnv 1 ["bookmark"] =
        (none, some (errors.New "cannot acquire a session on a closed driver")) ∧
      closedDriver.acquire sampleEnv { state := 3, calls := [] } 1 =
        ((none, some (errors.New "cannot acquire a session on a closed driver")),
          { state := 3, calls := [] }) :=
  have h := closed_driver_rejects sampleEnv closedDriver { state := 3, calls := [] } 1
    ["bookmark"] rfl
  ⟨rfl, h.1, h.2.1⟩

/-- C2: `Close` is idempotent. For `n ≥ 1` successive calls of `Close`: when the open flag is
1, the first call returns the result of the connector's `Close` unchanged (nil or an error),
every later call returns nil, the connector's `Close` is recorded exactly once, and the driver
and the world after the `n` calls are those after the first; when the flag is not 1 (in
particular 0, a closed driver) every call returns nil, nothing is recorded and driver and
world are unchanged. -/
theorem Close_idempotent {σ S : Type} (env : Env σ S) (n : Nat) (driver : seaboltDriver)
    (w : World σ) (hn : 1 ≤ n) :
    (driver.openFlag = 1 →
      closeTimes env n driver w =
          ((env.Close w.state driver.connector).1 :: List.replicate (n - 1) none,
            (driver.Close env w).2) ∧
        (driver.Close env w).1 = (env.Close w.state driver.connector).1 ∧
        (driver.Close env w).2.1 = { driver with openFlag := 0 } ∧
        (closeTimes env n driver w).2.2.state = (env.Close w.state driver.connector).2 ∧
        (closeTimes env n driver w).2.2.calls = w.calls ++ [Call.Close driver.connector] ∧
        closeCalls (closeTimes env n driver w).2.2.calls = closeCalls w.calls + 1) ∧
      (driver.openFlag ≠ 1 →
        closeTimes env n driver w = (List.replicate n none, driver, w) ∧
        closeCalls (closeTimes env n driver w).2.2.calls = closeCalls w.calls) := by
  obtain ⟨k, rfl⟩ : ∃ k, n = k + 1 := ⟨n - 1, by omega⟩
  constructor
  · intro h
    have hc : driver.Close env w =
        ((env.Close w.state driver.connector).1, { driver with openFlag := 0 },
          { state := (env.Close w.state driver.connector).2,
            calls := w.calls ++ [Call.Close driver.connector] }) := by
      simp [seaboltDriver.Close, h]
    have hrest := closeTimes_not_open env k (driver.Close env w).2.1 (driver.Close env w).2.2
      (by rw [hc]; simp)
    have ht : closeTimes env (k + 1) driver w =
        ((env.Close w.state driver.connector).1 :: List.replicate k none,
          (driver.Close env w).2) := by
      simp only [closeTimes, hrest]
      rw [hc]
    refine ⟨by simpa using ht, by rw [hc], by rw [hc], ?_, ?_, ?_⟩
    · rw [ht, hc]
    · rw [ht, hc]
    · rw [ht, hc]
      simp [closeCalls]
  · intro h
    have ht := closeTimes_not_open env (k + 1) driver w h
    exact ⟨ht, by rw [ht]⟩

theorem Close_idempotent_witness :
    1 ≤ 3 ∧ sampleDriver.openFlag = 1 ∧
      closeTimes sampleEnv 3 sampleDriver { state := 2, calls := [] } =
        ([some (GoError.PoolError { Code := 1 }), none, none],
          (sampleDriver.Close sampleEnv { state := 2, calls := [] }).2) ∧
      (closeTimes sampleEnv 3 sampleDriver { state := 2, calls := [] }).2.2.calls =
        [Call.Close 7] ∧
      closedDriver.openFlag ≠ 1 ∧
      closeTimes sampleEnv 3 closedDriver { state := 2, calls := [] } =
        ([none, none, none], closedDriver, { state := 2, calls := [] }) :=
  have h := Close_idempotent sampleEnv 3 sampleDriver { state := 2, calls := [] } (by decide)
  have k := Close_idempotent sampleEnv 3 closedDriver { state := 2, calls := [] } (by decide)
  ⟨by decide, rfl, (h.1 rfl).1, (h.1 rfl).2.2.2.2.1, by decide, (k.2 (by decide)).1⟩

/-- C3: a driver is open at construction. When the connector constructor returns a connector,
`newSeaboltDriver` returns a driver and a nil error, and every driver it returns has open = 1,
`Target()` equal to the target passed in and `configuration()` equal to the config passed in
(the default config when nil was passed); a `Session` call on it returns the result of
`newSession` with a nil error, a non-nil session since `newSession` (not part of the file,
assumed by `hNew` to return a non-nil pointer) returns one. When the connector constructor
fails, `newSeaboltDriver` returns a nil driver and exactly that error. -/
theorem newSeaboltDriver_open_at_construction {σ S : Type} (env : Env σ S) (w : World σ)
    (target : url.URL) (token : AuthToken) (config : Option Config)
    (hNew : ∀ driver accessMode bookmarks, (env.newSession driver accessMode bookmarks).isSome) :
    (∀ connector,
        (env.NewConnector w.state target token.tokens
          (configToSeaboltConfig (config.getD env.defaultConfig))).1 = .ok connector →
        ∃ driver, (newSeaboltDriver env w target token config).1 = (some driver, none)) ∧
      (∀ driver, (newSeaboltDriver env w target token config).1.1 = some driver →
        (newSeaboltDriver env w target token config).1.2 = none ∧
        driver.openFlag = 1 ∧
        driver.Target = target ∧
        driver.configuration = config.getD env.defaultConfig ∧
        ∀ accessMode bookmarks,
          driver.Session env accessMode bookmarks =
              (env.newSession driver accessMode bookmarks, none) ∧
            ∃ session, driver.Session env accessMode bookmarks = (some session, none)) ∧
      (∀ err,
        (env.NewConnector w.state target token.tokens
          (configToSeaboltConfig (config.getD env.defaultConfig))).1 = .error err →
        (newSeaboltDriver env w target token config).1 = (none, some err)) := by
  refine ⟨?_, ?_, ?_⟩
  · intro connector hc
    exact ⟨_, newSeaboltDriver_ok env w target token config connector hc⟩
  · intro driver hd
    obtain ⟨h1, h2, h3, h4⟩ := newSeaboltDriver_driver env w target token config driver hd
    refine ⟨h1, h2, h3, h4, ?_⟩
    intro accessMode bookmarks
    have hs := Session_open env driver accessMode bookmarks (by rw [h2]; decide)
    obtain ⟨session, hsome⟩ :=
      Option.isSome_iff_exists.mp (hNew driver accessMode bookmarks)
    exact ⟨hs, session, by rw [hs, hsome]⟩
  · intro err he
    exact newSeaboltDriver_error env w target token config err he

theorem newSeaboltDriver_open_at_construction_witness :
    (∀ driver accessMode bookmarks,
        (sampleEnv.newSession driver accessMode bookmarks).isSome) ∧
      (∃ driver, (newSeaboltDriver sampleEnv { state := 0, calls := [] } sampleTarget
        { tokens := [("scheme", "none")] } none).1 = (some driver, none)) ∧
      (newSeaboltDriver sampleEnv { state := 0, calls := [] } { sampleTarget with Host := "" }
        { tokens := [("scheme", "none")] } none).1 = (none, some (errors.New "invalid host")) :=
  ⟨fun _ _ _ => rfl,
    (newSeaboltDriver_open_at_construction sampleEnv { state := 0, calls := [] } sampleTarget
      { tokens := [("scheme", "none")] } none (fun _ _ _ => rfl)).1 7 rfl,
    (newSeaboltDriver_open_at_construction sampleEnv { state := 0, calls := [] }
      { sampleTarget with Host := "" } { tokens := [("scheme", "none")] } none
      (fun _ _ _ => rfl)).2.2 (errors.New "invalid host") rfl⟩

/-- C4: on an open driver (open flag not 0) `acquire` calls the connector's `Acquire` exactly
once and returns its result unchanged; the mode handed to the connector is the read mode
when the access mode is `AccessModeRead` and the write mode for every other value, among them
`AccessModeWrite`. -/
theorem acquire_forwards {σ S : Type} (env : Env σ S) (driver : seaboltDriver) (w : World σ)
    (mode : AccessMode) (h : driver.openFlag ≠ 0) :
    (mode = env.AccessModeRead →
      driver.acquire env w mode =
        ((env.Acquire w.state driver.connector .AccessModeRead).1,
          { state := (env.Acquire w.state driver.connector .AccessModeRead).2,
            calls := w.calls ++ [Call.Acquire driver.connector .AccessModeRead] })) ∧
      (mode ≠ env.AccessModeRead →
        driver.acquire env w mode =
          ((env.Acquire w.state driver.connector .AccessModeWrite).1,
            { state := (env.Acquire w.state driver.connector .AccessModeWrite).2,
              calls := w.calls ++ [Call.Acquire driver.connector .AccessModeWrite] })) ∧
      (env.AccessModeWrite ≠ env.AccessModeRead →
        driver.acquire env w env.AccessModeWrite =
          ((env.Acquire w.state driver.connector .AccessModeWrite).1,
            { state := (env.Acquire w.state driver.connector .AccessModeWrite).2,
              calls := w.calls ++ [Call.Acquire driver.connector .AccessModeWrite] })) ∧
      acquireCalls (driver.acquire env w mode).2.calls = acquireCalls w.calls + 1 := by
  have ha := assertDriverOpen_open driver h
  refine ⟨?_, ?_, ?_, ?_⟩
  · intro hm
    simp [seaboltDriver.acquire, ha, hm]
  · intro hm
    simp [seaboltDriver.acquire, ha, hm]
  · intro hm
    simp [seaboltDriver.acquire, ha, hm]
  · simp [seaboltDriver.acquire, ha, acquireCalls]

theorem acquire_forwards_witness :
    sampleDriver.openFlag ≠ 0 ∧ (1 : AccessMode) = sampleEnv.AccessModeRead ∧
      sampleDriver.acquire sampleEnv { state := 5, calls := [] } 1 =
        ((some 5, none), { state := 6, calls := [Call.Acquire 7 .AccessModeRead] }) ∧
      (42 : AccessMode) ≠ sampleEnv.AccessModeRead ∧
      sampleDriver.acquire sampleEnv { state := 5, calls := [] } 42 =
        ((some 5, none), { state := 6, calls := [Call.Acquire 7 .AccessModeWrite] }) ∧
      sampleEnv.AccessModeWrite ≠ sampleEnv.AccessModeRead ∧
      sampleDriver.acquire sampleEnv { state := 5, calls := [] } sampleEnv.AccessModeWrite =
        ((some 5, none), { state := 6, calls := [Call.Acquire 7 .AccessModeWrite] }) :=
  ⟨by decide, rfl,
    (acquire_forwards sampleEnv sampleDriver { state := 5, calls := [] } 1 (by decide)).1 rfl,
    by decide,
    (acquire_forwards sampleEnv sampleDriver { state := 5, calls := [] } 42
      (by decide)).2.1 (by decide),
    by decide,
    (acquire_forwards sampleEnv sampleDriver { state := 5, calls := [] } 42
      (by decide)).2.2.1 (by decide)⟩

/-- C5: for every config, `configToSeaboltConfig` copies `Encrypted` to `Encryption`, `Log` to
`Log` and `MaxConnectionPoolSize` to `MaxPoolSize`, and its list of value handlers is the same
ten handlers in the order node, relationship, path, point, date, localTime, offsetTime,
localDateTime, dateTime, duration, whatever the config. -/
theorem configToSeaboltConfig_fields (c : Config) :
    (configToSeaboltConfig c).Encryption = c.Encrypted ∧
      (configToSeaboltConfig c).Log = c.Log ∧
      (configToSeaboltConfig c).MaxPoolSize = c.MaxConnectionPoolSize ∧
      (configToSeaboltConfig c).ValueHandlers.length = 10 ∧
      (configToSeaboltConfig c).ValueHandlers =
        [seabolt.ValueHandler.nodeValueHandler, seabolt.ValueHandler.relationshipValueHandler,
          seabolt.ValueHandler.pathValueHandler, seabolt.ValueHandler.pointValueHandler,
          seabolt.ValueHandler.dateValueHandler, seabolt.ValueHandler.localTimeValueHandler,
          seabolt.ValueHandler.offsetTimeValueHandler,
          seabolt.ValueHandler.localDateTimeValueHandler,
          seabolt.ValueHandler.dateTimeValueHandler,
          seabolt.ValueHandler.durationValueHandler] ∧
      ∀ c2 : Config,
        (configToSeaboltConfig c2).ValueHandlers = (configToSeaboltConfig c).ValueHandlers :=
  ⟨rfl, rfl, rfl, rfl, rfl, fun _ => rfl⟩

/-- C8: lifecycle invariant. In every state reached from a driver returned by
`newSeaboltDriver` by a sequence of the operations Session, acquire, Close, Target and
configuration, the open flag is 0 or 1 and config, target and connector are those set at
construction; one more operation never changes config, target or connector, leaves the
open flag as it is unless the operation is Close, and leaves an open flag of 0 at 0; and
once the flag is 0 it is 0 after every further sequence of operations. -/
theorem lifecycle_invariant {σ S : Type} (env : Env σ S) (w : World σ) (target : url.URL)
    (token : AuthToken) (config : Option Config) (driver0 : seaboltDriver) (w0 : World σ)
    (ops : List Op)
    (hinit : newSeaboltDriver env w target token config = ((some driver0, none), w0)) :
    ((run env (driver0, w0) ops).1.openFlag = 0 ∨ (run env (driver0, w0) ops).1.openFlag = 1) ∧
      (run env (driver0, w0) ops).1.config = config.getD env.defaultConfig ∧
      (run env (driver0, w0) ops).1.target = target ∧
      (run env (driver0, w0) ops).1.connector = driver0.connector ∧
      ∀ op : Op,
        (step env (run env (driver0, w0) ops) op).1.config =
            (run env (driver0, w0) ops).1.config ∧
          (step env (run env (driver0, w0) ops) op).1.target =
            (run env (driver0, w0) ops).1.target ∧
          (step env (run env (driver0, w0) ops) op).1.connector =
            (run env (driver0, w0) ops).1.connector ∧
          (op ≠ Op.Close →
            (step env (run env (driver0, w0) ops) op).1.openFlag =
              (run env (driver0, w0) ops).1.openFlag) ∧
          ((run env (driver0, w0) ops).1.openFlag = 0 →
            (step env (run env (driver0, w0) ops) op).1.openFlag = 0 ∧
            ∀ more : List Op, (run env (driver0, w0) (ops ++ more)).1.openFlag = 0) := by
  have hd : driver0.openFlag = 1 ∧ driver0.config = config.getD env.defaultConfig ∧
      driver0.target = target := by
    obtain ⟨_, h2, h3, h4⟩ := newSeaboltDriver_driver env w target token config driver0
      (by rw [hinit])
    exact ⟨h2, h4, h3⟩
  obtain ⟨f1, f2, f3⟩ := run_fields env ops (driver0, w0)
  refine ⟨run_openFlag env ops (driver0, w0) (Or.inr hd.1), f1.trans hd.2.1, f2.trans hd.2.2,
    f3, ?_⟩
  intro op
  obtain ⟨k1, k2, k3⟩ := step_fields env (run env (driver0, w0) ops) op
  obtain ⟨o1, o2, _⟩ := step_openFlag env (run env (driver0, w0) ops) op
  refine ⟨k1, k2, k3, o1, fun h0 => ⟨o2 h0, fun more => ?_⟩⟩
  rw [run_append]
  exact run_closed env more _ h0

theorem lifecycle_invariant_witness :
    newSeaboltDriver sampleEnv { state := 0, calls := [] } sampleTarget { tokens := [] } none =
        ((some constructedDriver, none), constructedWorld) ∧
      ((run sampleEnv (constructedDriver, constructedWorld)
          [Op.acquire 1, Op.Close, Op.Session 0 [], Op.Close, Op.acquire 0]).1.openFlag = 0 ∨
        (run sampleEnv (constructedDriver, constructedWorld)
          [Op.acquire 1, Op.Close, Op.Session 0 [], Op.Close, Op.acquire 0]).1.openFlag = 1) ∧
      (run sampleEnv (constructedDriver, constructedWorld)
        [Op.acquire 1, Op.Close, Op.Session 0 [], Op.Close, Op.acquire 0]).1.target =
          sampleTarget :=
  have h := lifecycle_invariant sampleEnv { state := 0, calls := [] } sampleTarget
    { tokens := [] } none constructedDriver constructedWorld
    [Op.acquire 1, Op.Close, Op.Session 0 [], Op.Close, Op.acquire 0] rfl
  ⟨rfl, h.1, h.2.2.1⟩

/-! ## The matchers -/

theorem databaseErrorMatcher_Match_other (matcher : databaseErrorMatcher) (a : Value)
    (h : ∀ e, a ≠ Value.error (GoError.DatabaseError e)) : matcher.Match a = (false, none) := by
  cases a with
  | error err =>
    cases err with
    | DatabaseError e => exact absurd rfl (h e)
    | _ => rfl
  | _ => rfl

/-- C6: the database-error matchers decide by a type assertion and one check. A value is
matched by `BeDatabaseError` iff it is a DatabaseError, by `BeTransientError` (resp.
`BeClientError`) iff it is a DatabaseError whose classification equals "TransientError"
(resp. "ClientError"), by `BeArithmeticError` (resp. `BeSyntaxError`) iff it is a
DatabaseError whose code contains "ArithmeticError" (resp. "SyntaxError"), by
`ContainMessage(part)` iff it is a DatabaseError whose message contains `part`; none of
them returns a matcher error. -/
theorem database_matchers_decide (a : Value) (part : String) :
    (BeDatabaseError.Match a = (true, none) ↔
        ∃ e, a = Value.error (GoError.DatabaseError e)) ∧
      (BeTransientError.Match a = (true, none) ↔
        ∃ e, a = Value.error (GoError.DatabaseError e) ∧ e.Classification = "TransientError") ∧
      (BeClientError.Match a = (true, none) ↔
        ∃ e, a = Value.error (GoError.DatabaseError e) ∧ e.Classification = "ClientError") ∧
      (BeArithmeticError.Match a = (true, none) ↔
        ∃ e, a = Value.error (GoError.DatabaseError e) ∧
          ∃ before after : String, e.Code = before ++ "ArithmeticError" ++ after) ∧
      (BeSyntaxError.Match a = (true, none) ↔
        ∃ e, a = Value.error (GoError.DatabaseError e) ∧
          ∃ before after : String, e.Code = before ++ "SyntaxError" ++ after) ∧
      ((ContainMessage part).Match a = (true, none) ↔
        ∃ e, a = Value.error (GoError.DatabaseError e) ∧
          ∃ before after : String, e.Message = before ++ part ++ after) ∧
      (BeDatabaseError.Match a).2 = none ∧ (BeTransientError.Match a).2 = none ∧
      (BeClientError.Match a).2 = none ∧ (BeArithmeticError.Match a).2 = none ∧
      (BeSyntaxError.Match a).2 = none ∧ ((ContainMessage part).Match a).2 = none := by
  by_cases h : ∃ e, a = Value.error (GoError.DatabaseError e)
  · obtain ⟨e, rfl⟩ := h
    simp [databaseErrorMatcher.Match, Value.asDatabaseError, BeDatabaseError, BeTransientError,
      BeClientError, BeArithmeticError, BeSyntaxError, ContainMessage,
      gomega.StringMatcher.Match, Contains_iff]
  · have hne : ∀ e, a ≠ Value.error (GoError.DatabaseError e) := fun e he => h ⟨e, he⟩
    have hm := fun m => databaseErrorMatcher_Match_other m a hne
    have key : ∀ (m : databaseErrorMatcher) (P : seabolt.DatabaseError → Prop),
        (m.Match a = (true, none) ↔ ∃ e, a = Value.error (GoError.DatabaseError e) ∧ P e) := by
      intro m P
      rw [hm m]
      exact ⟨fun hf => by simp at hf, fun ⟨e, he, _⟩ => absurd ⟨e, he⟩ h⟩
    refine ⟨?_, key _ _, key _ _, key _ _, key _ _, key _ _, by rw [hm], by rw [hm],
      by rw [hm], by rw [hm], by rw [hm], by rw [hm]⟩
    rw [hm]
    exact ⟨fun hf => by simp at hf, fun hx => absurd hx h⟩

theorem database_matchers_decide_witness :
    BeTransientError.Match (Value.error (GoError.DatabaseError
        { Classification := "TransientError", Code := "Neo.TransientError.General",
          Message := "try again" })) = (true, none) ∧
      BeSyntaxError.Match (Value.error (GoError.DatabaseError
        { Classification := "ClientError", Code := "Neo.ClientError.Statement.SyntaxError",
          Message := "bad query" })) = (true, none) :=
  ⟨(database_matchers_decide _ "").2.1.mpr ⟨_, rfl, rfl⟩,
    (database_matchers_decide _ "").2.2.2.2.1.mpr
      ⟨_, rfl, "Neo.ClientError.Statement.", "", by decide⟩⟩

/-- C7: every matcher rejects a value of the wrong kind without a matcher error: `Match` of a
`databaseErrorMatcher`, `poolErrorMatcher`, `connectorErrorMatcher` and
`serviceUnavailableErrorMatcher` returns (false, nil) at every value that is not a
DatabaseError, PoolError, ConnectorError and error respectively, nil included; and
`BePoolFullError` matches a value iff it is a PoolError whose code equals 1. -/
theorem matchers_reject_wrong_kind (IsServiceUnavailable : GoError → Bool) (a : Value) :
    (∀ m : databaseErrorMatcher,
        (∀ e, a ≠ Value.error (GoError.DatabaseError e)) → m.Match a = (false, none)) ∧
      (∀ m : poolErrorMatcher,
        (∀ e, a ≠ Value.error (GoError.PoolError e)) → m.Match a = (false, none)) ∧
      (∀ m : connectorErrorMatcher,
        (∀ e, a ≠ Value.error (GoError.ConnectorError e)) → m.Match a = (false, none)) ∧
      (∀ m : serviceUnavailableErrorMatcher,
        (∀ e, a ≠ Value.error e) → m.Match IsServiceUnavailable a = (false, none)) ∧
      (∀ m : databaseErrorMatcher, m.Match Value.nil = (false, none)) ∧
      (∀ m : poolErrorMatcher, m.Match Value.nil = (false, none)) ∧
      (∀ m : connectorErrorMatcher, m.Match Value.nil = (false, none)) ∧
      (∀ m : serviceUnavailableErrorMatcher,
        m.Match IsServiceUnavailable Value.nil = (false, none)) ∧
      (BePoolFullError.Match a = (true, none) ↔
        ∃ e, a = Value.error (GoError.PoolError e) ∧ e.Code = 1) ∧
      (BePoolFullError.Match a).2 = none := by
  refine ⟨fun m h => databaseErrorMatcher_Match_other m a h, ?_, ?_, ?_, fun _ => rfl,
    fun _ => rfl, fun _ => rfl, fun _ => rfl, ?_, ?_⟩
  · intro m h
    cases a with
    | error err =>
      cases err with
      | PoolError e => exact absurd rfl (h e)
      | _ => rfl
    | _ => rfl
  · intro m h
    cases a with
    | error err =>
      cases err with
      | ConnectorError e => exact absurd rfl (h e)
      | _ => rfl
    | _ => rfl
  · intro m h
    cases a with
    | error err => exact absurd rfl (h err)
    | _ => rfl
  · cases a with
    | error err =>
      cases err <;> simp [poolErrorMatcher.Match, Value.asPoolError, BePoolFullError]
    | _ => simp [poolErrorMatcher.Match, Value.asPoolError]
  · cases a with
    | error err =>
      cases err <;> simp [poolErrorMatcher.Match, Value.asPoolError]
    | _ => simp [poolErrorMatcher.Match, Value.asPoolError]

theorem matchers_reject_wrong_kind_witness :
    (∀ e, Value.string "pool full" ≠ Value.error (GoError.DatabaseError e)) ∧
      BeTransientError.Match (Value.string "pool full") = (false, none) ∧
      (∀ e, Value.error (errors.New "x") ≠ Value.error (GoError.PoolError e)) ∧
      BePoolFullError.Match (Value.error (errors.New "x")) = (false, none) ∧
      (∀ e, Value.error (GoError.PoolError { Code := 1 }) ≠
        Value.error (GoError.ConnectorError e)) ∧
      BeAuthenticationError.Match (Value.error (GoError.PoolError { Code := 1 })) =
        (false, none) ∧
      (∀ e, Value.int 3 ≠ Value.error e) ∧
      BeServiceUnavailableError.Match (fun _ => true) (Value.int 3) = (false, none) :=
  ⟨fun _ => by simp,
    (matchers_reject_wrong_kind (fun _ => true) (Value.string "pool full")).1 _
      (fun _ => by simp),
    fun _ => by simp [errors.New],
    (matchers_reject_wrong_kind (fun _ => true) (Value.error (errors.New "x"))).2.1 _
      (fun _ => by simp [errors.New]),
    fun _ => by simp,
    (matchers_reject_wrong_kind (fun _ => true)
      (Value.error (GoError.PoolError { Code := 1 }))).2.2.1 _ (fun _ => by simp),
    fun _ => by simp,
    (matchers_reject_wrong_kind (fun _ => true) (Value.int 3)).2.2.2.1 _ (fun _ => by simp)⟩

/-- The values matched by `BeAuthenticationError`: the ConnectorErrors whose state is 4,
whatever their code. -/
theorem BeAuthenticationError_Match_iff (a : Value) :
    BeAuthenticationError.Match a = (true, none) ↔
      ∃ e, a = Value.error (GoError.ConnectorError e) ∧ e.State = 4 := by
  cases a with
  | error err =>
    cases err <;>
      simp [connectorErrorMatcher.Match, Value.asConnectorError, BeAuthenticationError,
        gomega.NumberMatcher.Match]
    norm_cast
  | _ => simp [connectorErrorMatcher.Match, Value.asConnectorError]

/-- C9: `BeAuthenticationError` is built with a state matcher for 4 and a code matcher for 7,
yet `Match` returns true at the ConnectorError with state 4 and code 5: the code matcher is
never consulted. -/
theorem BeAuthenticationError_ignores_code :
    BeAuthenticationError.stateMatcher = some (gomega.NumberMatcher.BeEquivalentTo 4) ∧
      BeAuthenticationError.codeMatcher = some (gomega.NumberMatcher.BeEquivalentTo 7) ∧
      BeAuthenticationError.Match
        (Value.error (GoError.ConnectorError { State := 4, Code := 5 })) = (true, none) := by
  refine ⟨rfl, rfl, ?_⟩
  simp [connectorErrorMatcher.Match, Value.asConnectorError, BeAuthenticationError,
    gomega.NumberMatcher.Match]

/-- The failure messages of the matchers that carry no message matcher are total. -/
theorem FailureMessage_total (f : Formatter) (matcher : databaseErrorMatcher) (a : Value)
    (h : matcher.messageMatcher = none) :
    (∃ s, matcher.FailureMessage f a = Run.ret s) ∧
      ∃ s, matcher.NegatedFailureMessage f a = Run.ret s := by
  obtain ⟨c, k, m⟩ := matcher
  simp only at h
  subst h
  cases hd : a.asDatabaseError <;> cases c <;> cases k <;>
    simp [databaseErrorMatcher.FailureMessage, databaseErrorMatcher.NegatedFailureMessage, hd,
      sprintfWith, callFailureMessage]

/-- C10: `FailureMessage` and `NegatedFailureMessage` of the matcher built by
`ContainMessage("boom")` end in a runtime panic at a DatabaseError: the branch taken for a
message matcher calls `FailureMessage` on the classification matcher, which is nil. -/
theorem ContainMessage_FailureMessage_panics (f : Formatter) :
    (ContainMessage "boom").classificationMatcher = none ∧
      (ContainMessage "boom").FailureMessage f
        (Value.error (GoError.DatabaseError
          { Classification := "ClientError", Code := "Neo.ClientError.Statement.SyntaxError",
            Message := "no such thing" })) = Run.panic ∧
      (ContainMessage "boom").NegatedFailureMessage f
        (Value.error (GoError.DatabaseError
          { Classification := "ClientError", Code := "Neo.ClientError.Statement.SyntaxError",
            Message := "boom" })) = Run.panic :=
  ⟨rfl, rfl, rfl⟩
